import Mathlib

/-!
Verification development for the superset-resize repository.

The repository embeds an external analytics dashboard and keeps the embedded
iframe sized to its container.  The same four-step orchestration
(fetch guest token, invoke the embedding SDK, observe container resizes,
apply sizes to the iframe) is implemented several times with different
concurrency idioms:

* `RxjsDashboardComponent.startPipeline` (src/unnamed/part_004) and
  `DashboardComponent.startPipeline` (src/src/app/components/dashboard/
  dashboard.component.ts, first half): one RxJS pipeline with
  `debounceTime(100)`, `distinctUntilChanged`, `takeUntil(destroy$)`.
* `DashboardComponent.initDashboard` (dashboard.component.ts, second half)
  and `LifecycleDashboardComponent.initDashboard` (src/unnamed/part_003):
  async/await with a `ResizeObserver` writing a signal that an
  `afterRenderEffect` reflects onto the iframe.
* `AfterNextRenderDashboardComponent` (src/src/app/pages/
  after-next-render-dashboard/after-next-render-dashboard.component.ts):
  token fetched in `ngOnInit`, embed run after the next render; its
  `currentStep` union has no `resize` member.

The models below translate those code paths directly; sizes are natural
number pairs, DOM children are lists of element identifiers, asynchronous
results are `Except` values, and a run is summarised by the trace of
lifecycle-step writes, the final presentation signals, the number of guest
token requests issued by the orchestrator, whether the embedding SDK was
invoked, and the list of width/height writes performed (target element
identifier paired with the size written).
-/

/-- A sampled (width, height) pair, from `entry.contentRect`. -/
structure Size where
  width : Nat
  height : Nat
deriving DecidableEq

/-- A size-change notification delivered at a point in time (milliseconds). -/
structure TimedSize where
  time : Nat
  size : Size
deriving DecidableEq

/-- The exposed lifecycle state.  The components' `currentStep` signal ranges
over `idle | token | embed | resize | done` (`resize` absent in the
after-next-render variant); the `error` value models the exposed error state
realised in the code by the `hasError` signal. -/
inductive Lifecycle where
  | idle
  | token
  | embed
  | resize
  | done
  | error
deriving DecidableEq

/-- The presentation signals every variant exposes to its template. -/
structure Presentation where
  isLoading : Bool
  hasError : Bool
  errorMessage : String
deriving DecidableEq

/-- Initial signal values: `isLoading = signal(true)`, `hasError = signal(false)`,
`errorMessage = signal('')`. -/
def presInit : Presentation := ⟨true, false, ""⟩

/-- Error message set when `dashboardId` is absent
(`'dashboardId が指定されていません。'`). -/
def missingIdMessage : String := "dashboardId が指定されていません。"

/-- The generic failure message set by every `catchError` / `catch` handler. -/
def genericFailureMessage : String :=
  "ダッシュボードの読み込みに失敗しました。Superset と BFF が起動しているか確認してください。"

/-- Presentation after a pipeline failure handler ran. -/
def errorPres : Presentation := ⟨false, true, genericFailureMessage⟩

/-- Presentation after the missing-identifier guard ran. -/
def missingPres : Presentation := ⟨false, true, missingIdMessage⟩

/-- Presentation while the pipeline is still loading (after the activation tap). -/
def loadingPres : Presentation := ⟨true, false, ""⟩

/-- Presentation once the embed resolved and no error occurred. -/
def donePres : Presentation := ⟨false, false, ""⟩

/-- The external world of one activation.  `tokenResult` is the credential
endpoint's outcome: `.error cause` for a network error or non-2xx status,
`.ok body` for a 2xx response whose parsed body may (`some token`) or may not
(`none`, malformed body) carry a `token` field — `getGuestToken` maps the
response with `response.token` and performs no validation.  `domAtEmbed` is
the mount target's child element list when the embed call resolves, and
`domLater` its child list at resize-application time (the SDK may have
replaced its element in between).  `resizeEvents` are the notifications the
`ResizeObserver` delivers for the mount target. -/
structure Env where
  dashboardId : String
  tokenResult : Except String (Option String)
  embedResult : Except String Unit
  domAtEmbed : List Nat
  domLater : List Nat
  resizeEvents : List TimedSize

/-- Summary of one activation run. -/
structure RunResult where
  stepTrace : List Lifecycle
  pres : Presentation
  fetchCount : Nat
  embedInvoked : Bool
  writes : List (Nat × Size)
deriving DecidableEq

/-- When teardown is triggered relative to the run's suspension points:
never, while the credential fetch is pending, or while the embed call is
pending. -/
inductive TearPoint where
  | live
  | beforeTokenResolve
  | beforeEmbedResolve
deriving DecidableEq

/-- `debounceTime(100)` on a finite, time-ordered notification list: a
notification is emitted only when no further notification arrives within the
window after it; the last notification of the list is always emitted once the
window elapses. -/
def debounce (w : Nat) : List TimedSize → List Size
  | [] => []
  | [e] => [e.size]
  | e :: f :: rest =>
      if e.time + w < f.time then e.size :: debounce w (f :: rest)
      else debounce w (f :: rest)

/-- `distinctUntilChanged((a, b) => a.width === b.width && a.height === b.height)`:
drop each element equal to the previously emitted one.  `destutterFrom a l`
processes `l` with `a` as the last emitted value. -/
def destutterFrom {α : Type} [DecidableEq α] (a : α) : List α → List α
  | [] => []
  | b :: rest => if b = a then destutterFrom a rest else b :: destutterFrom b rest

/-- Adjacent-duplicate removal; the first element is always emitted. -/
def destutter {α : Type} [DecidableEq α] : List α → List α
  | [] => []
  | a :: rest => a :: destutterFrom a rest

/-- The resize notifications that survive Step 4's
`debounceTime(100)` → `map(contentRect)` → `distinctUntilChanged` chain. -/
def survivors (events : List TimedSize) : List Size :=
  destutter (debounce 100 events)

/-- Whether every consecutive gap of the notification list is within the
coalescing window `w` (a rapid burst). -/
def rapidB (w : Nat) : List TimedSize → Bool
  | [] => true
  | [_] => true
  | e :: f :: rest => decide (f.time ≤ e.time + w) && rapidB w (f :: rest)

/-- Last notification of a list, by the same recursion shape as `debounce`. -/
def lastTS : List TimedSize → Option TimedSize
  | [] => none
  | [e] => some e
  | _ :: f :: rest => lastTS (f :: rest)

/-- `ctx.mountPoint.querySelector('iframe')` evaluated once, when the embed
call resolves: the first child of the mount target, if any. -/
def embedTimeIframe (domAtEmbed : List Nat) : Option Nat :=
  domAtEmbed.head?

/-- The element a resize application writes to in the code: the cached
`ctx.iframe` (respectively `this.iframeEl`).  The mount target's current
children `domNow` are not consulted. -/
def resizeWriteTarget (cachedIframe : Option Nat) (_domNow : List Nat) : Option Nat :=
  cachedIframe

/-- Modelled from the spec: the design note asks to "defensively re-query on
each resize application rather than caching the handle permanently", i.e. the
write target would be the mount target's current first child. -/
def requeryWriteTarget (_cachedIframe : Option Nat) (domNow : List Nat) : Option Nat :=
  domNow.head?

/-- The RxJS pipeline of `RxjsDashboardComponent.startPipeline` /
`DashboardComponent.startPipeline`.  Step 1 taps `currentStep := token`,
`isLoading := true`, `hasError := false`; Step 2 fetches the guest token and
on any stream error `catchError` sets the generic failure presentation
(embed never invoked); Step 3 invokes the embedding SDK, and on resolution
caches `mountPoint.querySelector('iframe')` in the context; Step 4 taps
`isLoading := false`, `currentStep := resize`, then for each notification
surviving `debounceTime(100)`/`distinctUntilChanged` writes
width/height to the cached iframe (skipped when the handle is null) and sets
`currentStep := done`.  `takeUntil(destroy$)` drops everything after
teardown: a teardown before the token resolves leaves only the Step 1 tap
observed, a teardown before the embed resolves leaves the embed invocation
(already issued) but discards its completion. -/
def rxjsRun (env : Env) (tear : TearPoint) : RunResult :=
  match tear with
  | .beforeTokenResolve =>
      ⟨[.token], loadingPres, 1, false, []⟩
  | .beforeEmbedResolve =>
      match env.tokenResult with
      | .error _ => ⟨[.token], errorPres, 1, false, []⟩
      | .ok _ => ⟨[.token, .embed], loadingPres, 1, true, []⟩
  | .live =>
      match env.tokenResult with
      | .error _ => ⟨[.token], errorPres, 1, false, []⟩
      | .ok _ =>
        match env.embedResult with
        | .error _ => ⟨[.token, .embed], errorPres, 1, true, []⟩
        | .ok _ =>
          let surv := survivors env.resizeEvents
          let ws :=
            match resizeWriteTarget (embedTimeIframe env.domAtEmbed) env.domLater with
            | some i => surv.map (fun s => (i, s))
            | none => []
          ⟨[.token, .embed, .resize] ++ surv.map (fun _ => Lifecycle.done),
           donePres, 1, true, ws⟩

/-- `DashboardComponent.ngAfterViewInit`: when `dashboardId` is falsy it sets
`hasError`, the missing-identifier message and `isLoading := false` and
returns without starting the pipeline; otherwise it runs `startPipeline`. -/
def ngAfterViewInit (env : Env) (tear : TearPoint) : RunResult :=
  if env.dashboardId = "" then
    ⟨[], missingPres, 0, false, []⟩
  else rxjsRun env tear

/-- The signals variant `DashboardComponent.initDashboard` (same control flow
as `LifecycleDashboardComponent.initDashboard`, which hard-codes a non-empty
identifier and so never takes the missing-identifier branch).  The async
sequence — set `token`, await the fetch, set `embed`, await the SDK, cache
`querySelector('iframe')`, set `resize`, start a `ResizeObserver` that writes
the `iframeSize` signal, with `afterRenderEffect` reflecting that signal onto
the cached iframe and setting `done` — carries no cancellation: destruction
only disconnects the observer, clears the mount target and destroys the
render effect, so a teardown raised while an await is pending lets the
sequence resume and still invoke the embedding SDK, while all width/height
writes and the `done` step (both performed by the destroyed render effect)
cease.  With no teardown, every notification is reflected (the variant has
no debounce and signal updates carry fresh objects, so equal sizes are not
suppressed), each application also setting `done`; when no iframe was found
the effect's guard makes the resize stage a no-op. -/
def initDashboard (env : Env) (tear : TearPoint) : RunResult :=
  if env.dashboardId = "" then
    ⟨[], missingPres, 0, false, []⟩
  else
    match env.tokenResult with
    | .error _ => ⟨[.token], errorPres, 1, false, []⟩
    | .ok _ =>
      match env.embedResult with
      | .error _ => ⟨[.token, .embed], errorPres, 1, true, []⟩
      | .ok _ =>
        match tear with
        | .live =>
          let ws :=
            match resizeWriteTarget (embedTimeIframe env.domAtEmbed) env.domLater with
            | some i => env.resizeEvents.map (fun e => (i, e.size))
            | none => []
          ⟨[.token, .embed, .resize] ++ ws.map (fun _ => Lifecycle.done),
           donePres, 1, true, ws⟩
        | _ =>
          ⟨[.token, .embed, .resize], donePres, 1, true, []⟩

/-- `AfterNextRenderDashboardComponent`: `ngOnInit` sets `token` and fetches;
on fetch error the subscribe error handler sets the generic failure
presentation; on a delivered token the after-render pipeline sets `embed`,
invokes the SDK, and on resolution sets `isLoading := false` and `done` —
its `currentStep` union has no `resize` member and no resize observation
exists. -/
def anrRun (env : Env) : RunResult :=
  match env.tokenResult with
  | .error _ => ⟨[.token], errorPres, 1, false, []⟩
  | .ok _ =>
    match env.embedResult with
    | .error _ => ⟨[.token, .embed], errorPres, 1, true, []⟩
    | .ok _ => ⟨[.token, .embed, .done], donePres, 1, true, []⟩

/-- The sequence of distinct exposed lifecycle values of a run: the
`currentStep` writes with repetitions collapsed, followed by the error state
when the run ended with `hasError` set. -/
def observed (r : RunResult) : List Lifecycle :=
  destutter (r.stepTrace ++ if r.pres.hasError then [Lifecycle.error] else [])

/-- Resources`ngOnDestroy` / the `DestroyRef` callback touch: whether the
destruction subject has fired, whether the resize observer is still
connected, and the mount target's children. -/
structure TeardownState where
  destroyNotified : Bool
  observerConnected : Bool
  mountChildren : List Nat
deriving DecidableEq

/-- `ngOnDestroy`: `destroy$.next(); destroy$.complete()` (unsubscribing every
stream, which disconnects the observer via `fromResizeObserver`'s teardown)
and `innerHTML = ''` on the mount target.  Each write is unconditional, so
the function is a constant update of the three resources. -/
def teardown (_s : TeardownState) : TeardownState :=
  ⟨true, false, []⟩

/-- Step 1 activation tap: `isLoading := true`, `hasError := false`
(the error message signal is untouched). -/
def activateStart (p : Presentation) : Presentation :=
  ⟨true, false, p.errorMessage⟩

/-- Missing-identifier rejection: `hasError := true`, the missing-identifier
message, `isLoading := false`. -/
def missingIdStep (_p : Presentation) : Presentation :=
  missingPres

/-- The shared failure handler (`catchError` / `catch` / the token subscribe
error callback): `isLoading := false`, `hasError := true`, the generic
message.  The token-fetch failure handler and the embed-failure handler have
this same body in every variant. -/
def pipelineFailureStep (_p : Presentation) : Presentation :=
  errorPres

/-- First paint: the post-embed tap sets `isLoading := false`; the error
signals are untouched. -/
def firstPaintStep (p : Presentation) : Presentation :=
  ⟨false, p.hasError, p.errorMessage⟩

/-- The presentation invariant: an exposed error implies loading has ended
and a non-empty error message is exposed. -/
def presInvariant (p : Presentation) : Prop :=
  p.hasError = true → p.isLoading = false ∧ p.errorMessage ≠ ""

instance decPresInvariant (p : Presentation) : Decidable (presInvariant p) :=
  inferInstanceAs (Decidable (p.hasError = true → p.isLoading = false ∧ p.errorMessage ≠ ""))

/-- Concrete activation for the claim C1 counterexample and witness: a
successful fetch and embed with one inserted element and one notification. -/
def envC1 : Env :=
  ⟨"d", .ok (some "tok"), .ok (), [2], [2], [⟨0, ⟨5, 5⟩⟩]⟩

/-- Concrete activation for claim C2: teardown is raised while the fetch is
pending, yet the fetch would succeed and the embed would resolve. -/
def envC2 : Env :=
  ⟨"d", .ok (some "tok"), .ok (), [3], [3], [⟨0, ⟨10, 10⟩⟩]⟩

/-- Concrete activation for the claim C3 witness: a two-notification burst
within the coalescing window. -/
def envC3 : Env :=
  ⟨"d", .ok (some "tok"), .ok (), [1], [1],
   [⟨0, ⟨800, 600⟩⟩, ⟨50, ⟨801, 600⟩⟩]⟩

/-- The claim C4 scenario: the spec's identifier, token `tok123`, a resolving
embed that inserts one child element, and resizes to 800×600 then 801×600
within 50 ms. -/
def envC4 : Env :=
  ⟨"abbb00fa-f7c9-4162-9c88-4a1ab1af1998", .ok (some "tok123"), .ok (), [0], [0],
   [⟨0, ⟨800, 600⟩⟩, ⟨50, ⟨801, 600⟩⟩]⟩

/-- Concrete activation for the claim C5 witness: an empty identifier with a
reachable endpoint behind it. -/
def envC5 : Env :=
  ⟨"", .ok (some "t"), .ok (), [], [], []⟩

/-- Concrete activation for the claim C6 counterexample: the endpoint answers
2xx with a malformed body carrying no `token` field. -/
def envC6 : Env :=
  ⟨"d", .ok none, .ok (), [4], [4], []⟩

/-- Concrete activation for the claim C6 witness: the endpoint fails. -/
def envC6a : Env :=
  ⟨"d", .error "ECONNREFUSED", .ok (), [], [], []⟩

/-- Concrete activation for the claim C7 witness: two notifications far apart,
so both survive coalescing and the second is applied after `done`. -/
def envC7 : Env :=
  ⟨"d", .ok (some "tok"), .ok (), [3], [3],
   [⟨0, ⟨8, 6⟩⟩, ⟨200, ⟨9, 6⟩⟩]⟩

/-- Concrete activation for claim C9: the embed-time child is element 5, but
by resize time the SDK has replaced it with element 7. -/
def envC9 : Env :=
  ⟨"d", .ok (some "tok"), .ok (), [5], [7], [⟨0, ⟨10, 20⟩⟩]⟩

theorem destutterFrom_replicate {α : Type} [DecidableEq α] (a : α) (n : Nat) :
    destutterFrom a (List.replicate n a) = [] := by
  induction n with
  | zero => rfl
  | succ n ih => rw [List.replicate_succ, destutterFrom, if_pos rfl]; exact ih

theorem destutterFrom_map_const {α β : Type} [DecidableEq α] (a : α) (l : List β) :
    destutterFrom a (l.map fun _ => a) = [] := by
  simp [destutterFrom_replicate]

theorem debounce_ne_nil (w : Nat) : ∀ l : List TimedSize, l ≠ [] → debounce w l ≠ [] := by
  intro l
  induction l with
  | nil => intro h; exact absurd rfl h
  | cons e rest ih =>
    intro _
    cases rest with
    | nil => simp [debounce]
    | cons f rest2 =>
      simp only [debounce]
      split
      · simp
      · exact ih (List.cons_ne_nil f rest2)

theorem destutter_ne_nil {α : Type} [DecidableEq α] (l : List α) (h : l ≠ []) :
    destutter l ≠ [] := by
  cases l with
  | nil => exact absurd rfl h
  | cons a rest => simp [destutter]

theorem survivors_ne_nil (l : List TimedSize) (h : l ≠ []) : survivors l ≠ [] :=
  destutter_ne_nil _ (debounce_ne_nil 100 l h)

theorem rapid_debounce (w : Nat) :
    ∀ (l : List TimedSize) (le : TimedSize), rapidB w l = true → lastTS l = some le →
      debounce w l = [le.size] := by
  intro l
  induction l with
  | nil => intro le _ h; exact absurd h (by simp [lastTS])
  | cons e rest ih =>
    intro le hr hl
    cases rest with
    | nil =>
      simp [lastTS] at hl
      subst hl
      rfl
    | cons f rest2 =>
      have h1 : f.time ≤ e.time + w := by
        simp only [rapidB, Bool.and_eq_true, decide_eq_true_eq] at hr
        exact hr.1
      have h2 : rapidB w (f :: rest2) = true := by
        simp only [rapidB, Bool.and_eq_true] at hr
        exact hr.2
      have hl2 : lastTS (f :: rest2) = some le := hl
      simp only [debounce]
      rw [if_neg (by omega)]
      exact ih le h2 hl2

theorem destutter_done_trace {β : Type} (l : List β) (hl : l ≠ []) :
    destutter ([Lifecycle.token, Lifecycle.embed, Lifecycle.resize]
        ++ l.map (fun _ => Lifecycle.done))
      = [Lifecycle.token, Lifecycle.embed, Lifecycle.resize, Lifecycle.done] := by
  obtain ⟨s, ss, rfl⟩ := List.exists_cons_of_ne_nil hl
  simp [destutter, destutterFrom, destutterFrom_replicate]

theorem rxjsRun_success (env : Env) (v : Option String)
    (ht : env.tokenResult = .ok v) (he : env.embedResult = .ok ()) :
    rxjsRun env .live =
      ⟨[Lifecycle.token, Lifecycle.embed, Lifecycle.resize]
          ++ (survivors env.resizeEvents).map (fun _ => Lifecycle.done),
       donePres, 1, true,
       match embedTimeIframe env.domAtEmbed with
       | some i => (survivors env.resizeEvents).map (fun s => (i, s))
       | none => []⟩ := by
  unfold rxjsRun
  rw [ht, he]
  rfl

theorem initDashboard_success (env : Env) (v : Option String)
    (hid : env.dashboardId ≠ "")
    (ht : env.tokenResult = .ok v) (he : env.embedResult = .ok ()) :
    initDashboard env .live =
      ⟨[Lifecycle.token, Lifecycle.embed, Lifecycle.resize]
          ++ ((match embedTimeIframe env.domAtEmbed with
               | some i => env.resizeEvents.map (fun (e : TimedSize) => (i, e.size))
               | none => []).map (fun _ => Lifecycle.done)),
       donePres, 1, true,
       match embedTimeIframe env.domAtEmbed with
       | some i => env.resizeEvents.map (fun (e : TimedSize) => (i, e.size))
       | none => []⟩ := by
  unfold initDashboard
  rw [if_neg hid, ht, he]
  rfl

theorem anrRun_success (env : Env) (v : Option String)
    (ht : env.tokenResult = .ok v) (he : env.embedResult = .ok ()) :
    anrRun env = ⟨[Lifecycle.token, Lifecycle.embed, Lifecycle.done], donePres, 1, true, []⟩ := by
  unfold anrRun
  rw [ht, he]

theorem presInvariant_loading : presInvariant loadingPres := by decide

theorem presInvariant_done : presInvariant donePres := by decide

theorem presInvariant_error : presInvariant errorPres := by decide

theorem presInvariant_missing : presInvariant missingPres := by decide

theorem presInvariant_pres_of_run (r : RunResult)
    (h : r.pres = loadingPres ∨ r.pres = donePres ∨ r.pres = errorPres ∨ r.pres = missingPres) :
    presInvariant r.pres := by
  rcases h with h | h | h | h <;> rw [h]
  · exact presInvariant_loading
  · exact presInvariant_done
  · exact presInvariant_error
  · exact presInvariant_missing

theorem rxjsRun_pres_cases (env : Env) (tear : TearPoint) :
    (rxjsRun env tear).pres = loadingPres ∨ (rxjsRun env tear).pres = donePres ∨
    (rxjsRun env tear).pres = errorPres ∨ (rxjsRun env tear).pres = missingPres := by
  unfold rxjsRun
  cases tear with
  | live =>
    cases env.tokenResult with
    | error _ => right; right; left; rfl
    | ok _ =>
      cases env.embedResult with
      | error _ => right; right; left; rfl
      | ok _ => right; left; rfl
  | beforeTokenResolve => left; rfl
  | beforeEmbedResolve =>
    cases env.tokenResult with
    | error _ => right; right; left; rfl
    | ok _ => left; rfl

theorem ngAfterViewInit_pres_cases (env : Env) (tear : TearPoint) :
    (ngAfterViewInit env tear).pres = loadingPres ∨ (ngAfterViewInit env tear).pres = donePres ∨
    (ngAfterViewInit env tear).pres = errorPres ∨ (ngAfterViewInit env tear).pres = missingPres := by
  unfold ngAfterViewInit
  by_cases hid : env.dashboardId = ""
  · rw [if_pos hid]; right; right; right; rfl
  · rw [if_neg hid]; exact rxjsRun_pres_cases env tear

theorem initDashboard_pres_cases (env : Env) (tear : TearPoint) :
    (initDashboard env tear).pres = loadingPres ∨ (initDashboard env tear).pres = donePres ∨
    (initDashboard env tear).pres = errorPres ∨ (initDashboard env tear).pres = missingPres := by
  unfold initDashboard
  by_cases hid : env.dashboardId = ""
  · rw [if_pos hid]; right; right; right; rfl
  · rw [if_neg hid]
    cases env.tokenResult with
    | error _ => right; right; left; rfl
    | ok _ =>
      cases env.embedResult with
      | error _ => right; right; left; rfl
      | ok _ => cases tear with
        | live => right; left; rfl
        | beforeTokenResolve => right; left; rfl
        | beforeEmbedResolve => right; left; rfl

theorem anrRun_pres_cases (env : Env) :
    (anrRun env).pres = loadingPres ∨ (anrRun env).pres = donePres ∨
    (anrRun env).pres = errorPres ∨ (anrRun env).pres = missingPres := by
  unfold anrRun
  cases env.tokenResult with
  | error _ => right; right; left; rfl
  | ok _ =>
    cases env.embedResult with
    | error _ => right; right; left; rfl
    | ok _ => right; left; rfl

/-- Claim C1, counterexample: in the after-next-render implementation a fully
successful activation exposes the lifecycle sequence token → embed → done —
the `resize` state is skipped (its `currentStep` union does not even contain
it), so the claimed sequence token → embed → resize → done does not hold in
every one of the interchangeable implementations. -/
theorem anr_skips_resize_state :
    observed (anrRun envC1) = [Lifecycle.token, Lifecycle.embed, Lifecycle.done] ∧
    observed (anrRun envC1)
      ≠ [Lifecycle.token, Lifecycle.embed, Lifecycle.resize, Lifecycle.done] := by
  decide

/-- Claim C1 (amended): for every activation with a non-empty identifier, a
succeeding credential fetch, a resolving embed call that inserted an element,
and at least one resize notification, the RxJS pipeline and the
signals/lifecycle implementation expose exactly token → embed → resize →
done, with no state skipped or reordered; the after-next-render
implementation has no resize state and exposes token → embed → done. -/
theorem success_state_sequences (env : Env) (t : String) (i : Nat) (d : List Nat)
    (hid : env.dashboardId ≠ "")
    (ht : env.tokenResult = .ok (some t))
    (he : env.embedResult = .ok ())
    (hd : env.domAtEmbed = i :: d)
    (hev : env.resizeEvents ≠ []) :
    observed (rxjsRun env .live)
      = [Lifecycle.token, Lifecycle.embed, Lifecycle.resize, Lifecycle.done] ∧
    observed (initDashboard env .live)
      = [Lifecycle.token, Lifecycle.embed, Lifecycle.resize, Lifecycle.done] ∧
    observed (anrRun env) = [Lifecycle.token, Lifecycle.embed, Lifecycle.done] := by
  refine ⟨?_, ?_, ?_⟩
  · have hs := survivors_ne_nil env.resizeEvents hev
    unfold observed
    rw [rxjsRun_success env (some t) ht he]
    show destutter (([Lifecycle.token, Lifecycle.embed, Lifecycle.resize]
        ++ (survivors env.resizeEvents).map (fun _ => Lifecycle.done)) ++ []) = _
    rw [List.append_nil]
    exact destutter_done_trace _ hs
  · unfold observed
    rw [initDashboard_success env (some t) hid ht he, hd]
    show destutter (([Lifecycle.token, Lifecycle.embed, Lifecycle.resize]
        ++ (env.resizeEvents.map (fun (e : TimedSize) => (i, e.size))).map
            (fun _ => Lifecycle.done)) ++ []) = _
    rw [List.append_nil]
    refine destutter_done_trace _ ?_
    obtain ⟨e, rest, hrev⟩ := List.exists_cons_of_ne_nil hev
    rw [hrev]
    simp
  · unfold observed
    rw [anrRun_success env (some t) ht he]
    rfl

/-- Claim C1 witness: the amended sequence theorem applied to a concrete
successful activation. -/
theorem success_state_sequences_witness :
    observed (rxjsRun envC1 .live)
      = [Lifecycle.token, Lifecycle.embed, Lifecycle.resize, Lifecycle.done] :=
  (success_state_sequences envC1 "tok" 2 [] (by decide) rfl rfl rfl (by decide)).1

/-- Claim C2, counterexample: in the signals/lifecycle implementation a
teardown raised while the credential fetch is pending does not cancel the
async sequence — when the fetch later resolves, the embed capability is still
invoked. -/
theorem lifecycle_embed_after_teardown :
    (initDashboard envC2 .beforeTokenResolve).embedInvoked = true := by
  decide

/-- Claim C2 (amended): in the RxJS implementations `takeUntil(destroy$)`
makes a teardown raised before the credential fetch resolves suppress the
embed invocation and every width/height write, and a teardown raised before
the embed resolves suppress every write; in the signals/lifecycle
implementation the async sequence is not cancelled — the embed call can still
happen after teardown — but no width/height write occurs after teardown
because the render effect that performs the writes is destroyed. -/
theorem teardown_suppression :
    ∀ env : Env,
      (rxjsRun env .beforeTokenResolve).embedInvoked = false ∧
      (rxjsRun env .beforeTokenResolve).writes = [] ∧
      (rxjsRun env .beforeEmbedResolve).writes = [] ∧
      (initDashboard env .beforeTokenResolve).writes = [] ∧
      (initDashboard env .beforeEmbedResolve).writes = [] := by
  intro env
  refine ⟨rfl, rfl, ?_, ?_, ?_⟩
  · unfold rxjsRun
    cases env.tokenResult <;> rfl
  · unfold initDashboard
    by_cases hid : env.dashboardId = ""
    · rw [if_pos hid]
    · rw [if_neg hid]
      cases env.tokenResult with
      | error _ => rfl
      | ok _ => cases env.embedResult <;> rfl
  · unfold initDashboard
    by_cases hid : env.dashboardId = ""
    · rw [if_pos hid]
    · rw [if_neg hid]
      cases env.tokenResult with
      | error _ => rfl
      | ok _ => cases env.embedResult <;> rfl

/-- Claim C3: for a burst of at least two resize notifications whose
consecutive gaps all lie within the 100 ms coalescing window, delivered after
an embed that found its element, the pipeline performs strictly fewer
width/height writes than there were notifications, and the single write that
survives carries the last notified size. -/
theorem burst_coalescing (env : Env) (t : String) (i : Nat) (d : List Nat) (le : TimedSize)
    (ht : env.tokenResult = .ok (some t))
    (he : env.embedResult = .ok ())
    (hd : env.domAtEmbed = i :: d)
    (hn : 2 ≤ env.resizeEvents.length)
    (hr : rapidB 100 env.resizeEvents = true)
    (hl : lastTS env.resizeEvents = some le) :
    (rxjsRun env .live).writes = [(i, le.size)] ∧
    (rxjsRun env .live).writes.length < env.resizeEvents.length := by
  have hdb := rapid_debounce 100 env.resizeEvents le hr hl
  have hsur : survivors env.resizeEvents = [le.size] := by
    unfold survivors
    rw [hdb]
    rfl
  have hw : (rxjsRun env .live).writes = [(i, le.size)] := by
    rw [rxjsRun_success env (some t) ht he, hd, hsur]
    rfl
  refine ⟨hw, ?_⟩
  rw [hw]
  have hone : ([(i, le.size)]).length = 1 := rfl
  omega

/-- Claim C3 witness: the coalescing theorem applied to a concrete
two-notification burst 50 ms apart. -/
theorem burst_coalescing_witness :
    (rxjsRun envC3 .live).writes = [(1, ⟨801, 600⟩)] :=
  (burst_coalescing envC3 "tok" 1 [] ⟨50, ⟨801, 600⟩⟩ rfl rfl rfl (by decide)
    (by decide) rfl).1

/-- Claim C4: in the concrete scenario — identifier
`abbb00fa-f7c9-4162-9c88-4a1ab1af1998`, endpoint returning token `tok123`,
embed resolving and inserting one child element, mount target resized to
800×600 and then 801×600 within 50 ms — exactly one width/height write
occurs, its value is 801×600 (the first change coalesced into the second),
and the lifecycle sequence ends at done. -/
theorem concrete_scenario_run :
    (rxjsRun envC4 .live).writes = [(0, ⟨801, 600⟩)] ∧
    observed (rxjsRun envC4 .live)
      = [Lifecycle.token, Lifecycle.embed, Lifecycle.resize, Lifecycle.done] := by
  decide

/-- Claim C5: activating with an empty identifier issues no network request,
never invokes the embed capability, immediately exposes the error state, and
carries the missing-identifier condition (message), in both variants that can
receive an identifier (`DashboardComponent.ngAfterViewInit` and the signals
variant's `initDashboard`). -/
theorem missing_identifier_fails_fast (env : Env) (tear : TearPoint)
    (h : env.dashboardId = "") :
    (ngAfterViewInit env tear).fetchCount = 0 ∧
    (ngAfterViewInit env tear).embedInvoked = false ∧
    observed (ngAfterViewInit env tear) = [Lifecycle.error] ∧
    (ngAfterViewInit env tear).pres = missingPres ∧
    (initDashboard env tear).fetchCount = 0 ∧
    (initDashboard env tear).embedInvoked = false ∧
    observed (initDashboard env tear) = [Lifecycle.error] ∧
    (initDashboard env tear).pres = missingPres := by
  have h1 : ngAfterViewInit env tear = ⟨[], missingPres, 0, false, []⟩ := by
    unfold ngAfterViewInit; rw [if_pos h]
  have h2 : initDashboard env tear = ⟨[], missingPres, 0, false, []⟩ := by
    unfold initDashboard; rw [if_pos h]
  rw [h1, h2]
  exact ⟨rfl, rfl, rfl, rfl, rfl, rfl, rfl, rfl⟩

/-- Claim C5 witness: the fail-fast theorem applied to a concrete activation
with an empty identifier. -/
theorem missing_identifier_fails_fast_witness :
    (ngAfterViewInit envC5 .live).fetchCount = 0 :=
  (missing_identifier_fails_fast envC5 .live rfl).1

/-- Claim C6, counterexample: a 2xx response whose body lacks the `token`
field is not treated as a fetch failure — `getGuestToken` extracts the
missing field without validation, the pipeline proceeds, the embed capability
is invoked, and the state sequence is not token → error. -/
theorem malformed_body_proceeds :
    (rxjsRun envC6 .live).embedInvoked = true ∧
    observed (rxjsRun envC6 .live)
      = [Lifecycle.token, Lifecycle.embed, Lifecycle.resize] ∧
    observed (rxjsRun envC6 .live) ≠ [Lifecycle.token, Lifecycle.error] := by
  decide

/-- Claim C6 (amended): when the credential request itself fails (network
error or non-success status), every implementation exposes exactly
token → error, never invokes the embed capability, and surfaces the fixed
generic message — independent of the underlying cause — rather than the
cause itself; a malformed 2xx body, however, is not treated as failure. -/
theorem fetch_failure_generic_error (env : Env) (c : String)
    (hid : env.dashboardId ≠ "")
    (ht : env.tokenResult = .error c) :
    observed (rxjsRun env .live) = [Lifecycle.token, Lifecycle.error] ∧
    (rxjsRun env .live).embedInvoked = false ∧
    (rxjsRun env .live).pres.errorMessage = genericFailureMessage ∧
    observed (initDashboard env .live) = [Lifecycle.token, Lifecycle.error] ∧
    (initDashboard env .live).embedInvoked = false ∧
    (initDashboard env .live).pres.errorMessage = genericFailureMessage ∧
    observed (anrRun env) = [Lifecycle.token, Lifecycle.error] ∧
    (anrRun env).embedInvoked = false ∧
    (anrRun env).pres.errorMessage = genericFailureMessage := by
  have h1 : rxjsRun env .live = ⟨[Lifecycle.token], errorPres, 1, false, []⟩ := by
    unfold rxjsRun; rw [ht]
  have h2 : initDashboard env .live = ⟨[Lifecycle.token], errorPres, 1, false, []⟩ := by
    unfold initDashboard; rw [if_neg hid, ht]
  have h3 : anrRun env = ⟨[Lifecycle.token], errorPres, 1, false, []⟩ := by
    unfold anrRun; rw [ht]
  rw [h1, h2, h3]
  exact ⟨rfl, rfl, rfl, rfl, rfl, rfl, rfl, rfl, rfl⟩

/-- Claim C6 witness: the fetch-failure theorem applied to a concrete refused
connection. -/
theorem fetch_failure_generic_error_witness :
    observed (rxjsRun envC6a .live) = [Lifecycle.token, Lifecycle.error] :=
  (fetch_failure_generic_error envC6a "ECONNREFUSED" (by decide) rfl).1

/-- Claim C7: after a successful fetch and embed, the RxJS pipeline sets done
at the first application of a surviving size and keeps observing — every
subsequent surviving change is applied as well (done is first paint, not
terminal), each application re-setting done; and when no inserted element was
located the resize applications are guarded no-ops with no error raised. -/
theorem resize_done_not_terminal (env : Env) (t : String)
    (ht : env.tokenResult = .ok (some t))
    (he : env.embedResult = .ok ()) :
    (rxjsRun env .live).stepTrace
      = [Lifecycle.token, Lifecycle.embed, Lifecycle.resize]
        ++ (survivors env.resizeEvents).map (fun _ => Lifecycle.done) ∧
    (∀ i d, env.domAtEmbed = i :: d →
      (rxjsRun env .live).writes = (survivors env.resizeEvents).map (fun s => (i, s))) ∧
    (env.domAtEmbed = [] → (rxjsRun env .live).writes = []) ∧
    (rxjsRun env .live).pres.hasError = false := by
  have h1 := rxjsRun_success env (some t) ht he
  refine ⟨by rw [h1], ?_, ?_, by rw [h1]; rfl⟩
  · intro i d hd
    rw [h1, hd]
    rfl
  · intro hd
    rw [h1, hd]
    rfl

/-- Claim C7 witness: the theorem applied to a run with two surviving
notifications, the second applied after done was first reached. -/
theorem resize_done_not_terminal_witness :
    (rxjsRun envC7 .live).stepTrace
      = [Lifecycle.token, Lifecycle.embed, Lifecycle.resize]
        ++ (survivors envC7.resizeEvents).map (fun _ => Lifecycle.done) :=
  (resize_done_not_terminal envC7 "tok" rfl rfl).1

/-- Claim C8: teardown is idempotent — it marks the destruction subject
fired, leaves the observer disconnected and the mount target cleared, and a
second invocation (or one before activation completed) produces exactly the
state of the first. -/
theorem teardown_idempotent :
    (∀ s, teardown (teardown s) = teardown s) ∧
    (∀ s, (teardown s).destroyNotified = true ∧ (teardown s).observerConnected = false
        ∧ (teardown s).mountChildren = []) :=
  ⟨fun _ => rfl, fun _ => ⟨rfl, rfl, rfl⟩⟩

/-- Claim C9, counterexample: with the embed-time child being element 5 and
the mount target's child at resize time being element 7 (the SDK replaced
it), the pipeline's write goes to the cached element 5 while a re-query of
the mount target yields element 7 — the handle is not re-queried on each
resize application. -/
theorem resize_target_not_requeried :
    (rxjsRun envC9 .live).writes = [(5, ⟨10, 20⟩)] ∧
    requeryWriteTarget (embedTimeIframe envC9.domAtEmbed) envC9.domLater = some 7 ∧
    resizeWriteTarget (embedTimeIframe envC9.domAtEmbed) envC9.domLater
      ≠ requeryWriteTarget (embedTimeIframe envC9.domAtEmbed) envC9.domLater := by
  decide

/-- Claim C9 (amended): the embedded-element handle is queried from the mount
target exactly once, when the embed call resolves, and every subsequent
resize application writes to that cached handle; the application never
consults the mount target's current contents, so an element replaced by the
SDK after a credential refresh would not be sized. -/
theorem resize_target_cached (env : Env) (t : String) (i : Nat) (d : List Nat)
    (ht : env.tokenResult = .ok (some t))
    (he : env.embedResult = .ok ())
    (hd : env.domAtEmbed = i :: d) :
    (rxjsRun env .live).writes = (survivors env.resizeEvents).map (fun s => (i, s)) ∧
    (∀ c dn dn', resizeWriteTarget c dn = resizeWriteTarget c dn') ∧
    (∀ c dn, resizeWriteTarget c dn = c) := by
  refine ⟨?_, fun c dn dn' => rfl, fun c dn => rfl⟩
  rw [rxjsRun_success env (some t) ht he, hd]
  rfl

/-- Claim C9 witness: the cached-handle theorem applied to the concrete
replaced-element activation. -/
theorem resize_target_cached_witness :
    (rxjsRun envC9 .live).writes = (survivors envC9.resizeEvents).map (fun s => (5, s)) :=
  (resize_target_cached envC9 "tok" 5 [] rfl rfl rfl).1

/-- Claim C10: the presentation invariant — an exposed error implies loading
has ended and a non-empty message is exposed — holds initially, is preserved
by every state-updating step of every variant (activation start,
missing-identifier rejection, the shared token-fetch/embed failure handler,
first paint), and holds of the presentation left by every modelled run. -/
theorem presentation_invariant_all :
    presInvariant presInit ∧
    (∀ p, presInvariant (activateStart p)) ∧
    (∀ p, presInvariant (missingIdStep p)) ∧
    (∀ p, presInvariant (pipelineFailureStep p)) ∧
    (∀ p, presInvariant p → presInvariant (firstPaintStep p)) ∧
    (∀ env tear,
      presInvariant (ngAfterViewInit env tear).pres ∧
      presInvariant (rxjsRun env tear).pres ∧
      presInvariant (initDashboard env tear).pres ∧
      presInvariant (anrRun env).pres) := by
  refine ⟨by decide, ?_, ?_, ?_, ?_, ?_⟩
  · exact fun p h => nomatch h
  · exact fun p => presInvariant_missing
  · exact fun p => presInvariant_error
  · exact fun p hp h => ⟨rfl, (hp h).2⟩
  · exact fun env tear =>
      ⟨presInvariant_pres_of_run _ (ngAfterViewInit_pres_cases env tear),
       presInvariant_pres_of_run _ (rxjsRun_pres_cases env tear),
       presInvariant_pres_of_run _ (initDashboard_pres_cases env tear),
       presInvariant_pres_of_run _ (anrRun_pres_cases env)⟩

/-- Claim C10 witness: preservation across first paint applied to the
failure presentation. -/
theorem presentation_invariant_all_witness :
    presInvariant (firstPaintStep errorPres) :=
  presentation_invariant_all.2.2.2.2.1 errorPres (by decide)
